import Mathlib

/-
Shallow embedding of scripts/metrics-exporter.py, a Prometheus metrics
exporter for a SOCKS5 proxy behind a WireGuard tunnel.  Python strings are
modelled as List Char, floats as rationals, integers as Int/Nat.  External
effects (interface byte counters, subprocess results, wall-clock time,
reverse-DNS resolution) are passed in as explicit parameters.
-/

/-- Convert a Lean string literal to the List Char representation used
throughout this development. -/
def S (s : String) : List Char := s.toList

/-- Python str.strip and the regex class \s (ASCII whitespace). -/
def isPySpace (c : Char) : Bool :=
  c = ' ' || c = '\t' || c = '\n' || c = '\x0d' || c = '\x0b' || c = '\x0c'

/-- Python substring test (the `in` operator on str). -/
def containsSub (pat : List Char) : List Char → Bool
  | [] => pat.isEmpty
  | c :: t => List.isPrefixOf pat (c :: t) || containsSub pat t

/-- Python str.split on a single character (keeps empty chunks). -/
def splitOnChar (sep : Char) : List Char → List (List Char)
  | [] => [[]]
  | c :: t =>
    if c = sep then [] :: splitOnChar sep t
    else
      match splitOnChar sep t with
      | [] => [[c]]
      | h :: t2 => (c :: h) :: t2

/-- Python str.split on a multi-character separator, with fuel for
structural termination; the wrapper below supplies enough fuel. -/
def splitSubFuel (sep : List Char) : Nat → List Char → List (List Char)
  | 0, l => [l]
  | fuel + 1, l =>
    if List.isPrefixOf sep l && !sep.isEmpty then
      [] :: splitSubFuel sep fuel (l.drop sep.length)
    else
      match l with
      | [] => [[]]
      | c :: t =>
        match splitSubFuel sep fuel t with
        | [] => [[c]]
        | h :: t2 => (c :: h) :: t2

/-- Python str.split on a multi-character separator. -/
def splitSub (sep l : List Char) : List (List Char) :=
  splitSubFuel sep (l.length + 1) l

/-- Python str.strip (remove leading and trailing whitespace). -/
def strip (l : List Char) : List Char :=
  ((l.dropWhile isPySpace).reverse.dropWhile isPySpace).reverse

/-- Decimal digits to a natural number (Python int of a digit string). -/
def digitsToNat (l : List Char) : Nat :=
  l.foldl (fun a c => 10 * a + (c.toNat - 48)) 0

/-- Take a maximal nonempty run of characters satisfying p, as a regex
engine does for a greedy one-or-more class whose follower is disjoint. -/
def munch1 (p : Char → Bool) (l : List Char) : Option (List Char × List Char) :=
  let a := l.takeWhile p
  if a.isEmpty then none else some (a, l.dropWhile p)

/-- Consume one expected character. -/
def expectChar (c : Char) : List Char → Option (List Char)
  | [] => none
  | x :: t => if x = c then some t else none

/-- Try the regex (\d+)\s+minute at the head of the list, returning the
captured number.  Each greedy class is followed by a disjoint character
class, so maximal munch coincides with the backtracking regex engine. -/
def matchMinutesAt (l : List Char) : Option Nat :=
  match munch1 Char.isDigit l with
  | none => none
  | some (ds, r1) =>
    match munch1 isPySpace r1 with
    | none => none
    | some (_, r2) =>
      if List.isPrefixOf (S ("minute")) r2 then some (digitsToNat ds) else none

/-- re.search of (\d+)\s+minute: leftmost match wins. -/
def reSearchMinutes : List Char → Option Nat
  | [] => none
  | c :: t =>
    match matchMinutesAt (c :: t) with
    | some n => some n
    | none => reSearchMinutes t

/-- Consume one IP octet group: \d+ then a literal dot. -/
def munchOctetDot (l : List Char) : Option (List Char × List Char) :=
  match munch1 Char.isDigit l with
  | none => none
  | some (ds, r) =>
    match expectChar '.' r with
    | none => none
    | some r2 => some (ds, r2)

/-- Try the client-address regex of monitor_dante_logs at the head of the
list: \]:\s+(\d+\.\d+\.\d+\.\d+)\.\d+\s+\d+\.\d+\.\d+\.\d+\.\d+ ,
returning the captured dotted quad. -/
def matchClientAt (l : List Char) : Option (List Char) :=
  match expectChar ']' l with
  | none => none
  | some r0 =>
  match expectChar ':' r0 with
  | none => none
  | some r1 =>
  match munch1 isPySpace r1 with
  | none => none
  | some (_, r2) =>
  match munchOctetDot r2 with
  | none => none
  | some (a, r3) =>
  match munchOctetDot r3 with
  | none => none
  | some (b, r4) =>
  match munchOctetDot r4 with
  | none => none
  | some (c, r5) =>
  match munch1 Char.isDigit r5 with
  | none => none
  | some (d, r6) =>
  match expectChar '.' r6 with
  | none => none
  | some r7 =>
  match munch1 Char.isDigit r7 with
  | none => none
  | some (_, r8) =>
  match munch1 isPySpace r8 with
  | none => none
  | some (_, r9) =>
  match munchOctetDot r9 with
  | none => none
  | some (_, r10) =>
  match munchOctetDot r10 with
  | none => none
  | some (_, r11) =>
  match munchOctetDot r11 with
  | none => none
  | some (_, r12) =>
  match munchOctetDot r12 with
  | none => none
  | some (_, r13) =>
  match munch1 Char.isDigit r13 with
  | none => none
  | some _ =>
    some (a ++ ['.'] ++ b ++ ['.'] ++ c ++ ['.'] ++ d)

/-- re.search of the client-address pattern: scan for the leftmost match. -/
def searchClient : List Char → Option (List Char)
  | [] => none
  | c :: t =>
    match matchClientAt (c :: t) with
    | some ip => some ip
    | none => searchClient t

/-- Try the regex pass\((\d+)\) at the head of the list. -/
def matchConnIdAt (l : List Char) : Option (List Char) :=
  if List.isPrefixOf (S ("pass(")) l then
    match munch1 Char.isDigit (l.drop 5) with
    | none => none
    | some (ds, r) =>
      match expectChar ')' r with
      | none => none
      | some _ => some ds
  else none

/-- re.search of pass\((\d+)\), leftmost match. -/
def searchConnId : List Char → Option (List Char)
  | [] => none
  | c :: t =>
    match matchConnIdAt (c :: t) with
    | some ds => some ds
    | none => searchConnId t

/-- Try the regex (\d+)\s+bytes at the head of the list. -/
def matchBytesAt (l : List Char) : Option Nat :=
  match munch1 Char.isDigit l with
  | none => none
  | some (ds, r1) =>
    match munch1 isPySpace r1 with
    | none => none
    | some (_, r2) =>
      if List.isPrefixOf (S ("bytes")) r2 then some (digitsToNat ds) else none

/-- re.search of (\d+)\s+bytes, leftmost match. -/
def searchBytes : List Char → Option Nat
  | [] => none
  | c :: t =>
    match matchBytesAt (c :: t) with
    | some n => some n
    | none => searchBytes t

/-- Python str of a natural number. -/
def natToChars (n : Nat) : List Char := (Nat.repr n).toList

/-- Python str of an integer. -/
def intToChars (i : Int) : List Char :=
  if i < 0 then '-' :: natToChars i.natAbs else natToChars i.natAbs

/-- Round a rational to the nearest integer, ties to even, as Python float
formatting does. -/
def roundHalfEven (x : ℚ) : ℤ :=
  let f := Rat.floor x
  let frac := x - (f : ℚ)
  if frac > 1 / 2 then f + 1
  else if frac < 1 / 2 then f
  else if f % 2 = 0 then f else f + 1

/-- Python f-string fixed formatting with two decimals. -/
def fmt2 (q : ℚ) : List Char :=
  let n := roundHalfEven (q * 100)
  let s := natToChars n.natAbs
  let s := if s.length < 3 then List.replicate (3 - s.length) '0' ++ s else s
  let intPart := s.take (s.length - 2)
  let fracPart := s.drop (s.length - 2)
  (if n < 0 then ['-'] else []) ++ intPart ++ ['.'] ++ fracPart

/-- client.replace described in do_GET: dots and dashes become
underscores, making the name a valid label token. -/
def sanitizeLabel (l : List Char) : List Char :=
  l.map (fun c => if c = '.' || c = '-' then '_' else c)

/-- Python defaultdict(int) increment d[k] += 1 on an insertion-ordered
association list. -/
def bumpKey : List (List Char × Nat) → List Char → List (List Char × Nat)
  | [], k => [(k, 1)]
  | (k0, n) :: t, k =>
    if k0 = k then (k0, n + 1) :: t else (k0, n) :: bumpKey t k

/-- Read a counter out of the association list (0 when absent, matching
defaultdict(int)). -/
def lookupCount : List (List Char × Nat) → List Char → Nat
  | [], _ => 0
  | (k0, n) :: t, k => if k0 = k then n else lookupCount t k

/-- Python dict assignment d[k] = v on an association list. -/
def setKey : List (List Char × ℚ) → List Char → ℚ → List (List Char × ℚ)
  | [], k, v => [(k, v)]
  | (k0, v0) :: t, k, v =>
    if k0 = k then (k0, v) :: t else (k0, v0) :: setKey t k v

/-- Python dict lookup with membership test (k in d). -/
def lookupKey : List (List Char × ℚ) → List Char → Option ℚ
  | [], _ => none
  | (k0, v0) :: t, k => if k0 = k then some v0 else lookupKey t k

/-- Python del d[k]. -/
def delKey : List (List Char × ℚ) → List Char → List (List Char × ℚ)
  | [], _ => []
  | (k0, v0) :: t, k => if k0 = k then t else (k0, v0) :: delKey t k

/-
The ProxyMetrics state (class ProxyMetrics).  Wall-clock reads and the
interface byte counter are passed in by callers; the lock is a no-op in
this sequential model (each operation is one atomic step).
-/

structure ProxyMetrics where
  request_count : Nat
  bytes_transferred : ℤ
  active_connections : Nat
  failed_requests : Nat
  successful_requests : Nat
  requests_by_host : List (List Char × Nat)
  last_request_time : ℚ
  initial_wg0_bytes : ℤ
  latency_ms : ℚ
  latency_last_check : ℚ
  download_speed_mbps : ℚ
  speed_last_check : ℚ
  connection_durations : List ℚ
  avg_connection_duration : ℚ
deriving DecidableEq

/-- ProxyMetrics.__init__; t0 is time.time() at start and initialBytes the
get_wg0_bytes reading captured as the baseline. -/
def init (t0 : ℚ) (initialBytes : ℤ) : ProxyMetrics :=
  { request_count := 0
    bytes_transferred := 0
    active_connections := 0
    failed_requests := 0
    successful_requests := 0
    requests_by_host := []
    last_request_time := t0
    initial_wg0_bytes := initialBytes
    latency_ms := 0
    latency_last_check := 0
    download_speed_mbps := 0
    speed_last_check := 0
    connection_durations := []
    avg_connection_duration := 0 }

/-- ProxyMetrics.get_success_rate. -/
def get_success_rate (m : ProxyMetrics) : ℚ :=
  let total := m.successful_requests + m.failed_requests
  if total = 0 then 100
  else ((m.successful_requests : ℚ) / (total : ℚ)) * 100

/-- ProxyMetrics.record_request; current_bytes is the live get_wg0_bytes
reading and now is time.time(). -/
def record_request (m : ProxyMetrics) (success : Bool) (host client : List Char)
    (current_bytes : ℤ) (now : ℚ) : ProxyMetrics :=
  let m1 := { m with request_count := m.request_count + 1 }
  let m2 := { m1 with bytes_transferred := current_bytes - m1.initial_wg0_bytes }
  let m3 :=
    if success then { m2 with successful_requests := m2.successful_requests + 1 }
    else { m2 with failed_requests := m2.failed_requests + 1 }
  let m4 := { m3 with requests_by_host := bumpKey m3.requests_by_host host }
  let m5 :=
    if client ≠ S ("unknown") then
      { m4 with requests_by_host := bumpKey m4.requests_by_host client }
    else m4
  { m5 with last_request_time := now }

/-- ProxyMetrics.update_latency. -/
def update_latency (m : ProxyMetrics) (v : ℚ) (now : ℚ) : ProxyMetrics :=
  { m with latency_ms := v, latency_last_check := now }

/-- ProxyMetrics.update_speed. -/
def update_speed (m : ProxyMetrics) (v : ℚ) (now : ℚ) : ProxyMetrics :=
  { m with download_speed_mbps := v, speed_last_check := now }

/-- ProxyMetrics.add_connection_duration: append, evict the oldest beyond
100, recompute the average over the stored buffer. -/
def add_connection_duration (m : ProxyMetrics) (d : ℚ) : ProxyMetrics :=
  let ds := m.connection_durations ++ [d]
  let ds2 := if 100 < ds.length then ds.tail else ds
  { m with
    connection_durations := ds2
    avg_connection_duration :=
      if ds2 = [] then m.avg_connection_duration
      else ds2.sum / (ds2.length : ℚ) }

/-
MetricsHandler.check_vpn_status.  The result of subprocess.run of
wg show wg0 is modelled as Option (Int x List Char): none when the
invocation raises, some (returncode, stdout) when it completes.
-/

/-- The separator string used on the handshake line. -/
def lhSep : List Char := S ("latest handshake:")

/-- The handshake-info substring: take the first stdout line containing
the marker, split on the marker, keep the last piece, strip it. -/
def extractHandshakeInfo (out : List Char) : List Char :=
  match (splitOnChar '\n' out).filter (fun l => containsSub lhSep l) with
  | [] => []
  | h :: _ => strip (List.getLastD (splitSub lhSep h) [])

/-- MetricsHandler.check_vpn_status translated clause by clause. -/
def check_vpn_status (res : Option (ℤ × List Char)) : Bool :=
  match res with
  | none => false
  | some (rc, out) =>
    if rc = 0 then
      if !containsSub (S ("peer:")) out then false
      else if containsSub lhSep out then
        match (splitOnChar '\n' out).filter (fun l => containsSub lhSep l) with
        | [] => false
        | h :: _ =>
          let info := strip (List.getLastD (splitSub lhSep h) [])
          if containsSub (S ("day")) info || containsSub (S ("hour")) info then
            false
          else
            match reSearchMinutes info with
            | some minutes => if 3 < minutes then false else true
            | none => true
      else false
    else false

/-- Freshness of the handshake info as the spec words it: not reported in
days or hours, and any reported minutes figure at most the 3-minute
staleness threshold. -/
def handshakeFresh (info : List Char) : Bool :=
  !(containsSub (S ("day")) info || containsSub (S ("hour")) info) &&
    (match reSearchMinutes info with
     | some minutes => minutes ≤ 3
     | none => true)

/-
monitor_dante_logs: per-line processing.  The reverse-DNS resolution
(resolve_ip_to_container) is an external effect, passed in as rv; the
connection_start_times dict travels with the metrics object.
-/

structure MonitorState where
  metrics : ProxyMetrics
  conn_starts : List (List Char × ℚ)
deriving DecidableEq

/-- The client_name computation at the top of the log loop: extract the
client address, skip the localhost health-check address, otherwise
resolve. -/
def extractClientName (rv : List Char → List Char) (line : List Char) : List Char :=
  match searchClient line with
  | some ip => if ip ≠ S ("127.0.0.1") then rv ip else S ("unknown")
  | none => S ("unknown")

/-- The fallback branch of resolve_ip_to_container when both lookups fail:
the IP with dots replaced by underscores. -/
def fallbackResolver (ip : List Char) : List Char :=
  ip.map (fun c => if c = '.' then '_' else c)

/-- A resolver standing for a successful reverse lookup. -/
def altResolver (_ : List Char) : List Char := S ("client-a")

/-- The pass/block verdict handling at the top of the loop body: on a
verdict line call record_request with success set by the pass token and
the resolved client name (the host argument is never passed, staying at
its "unknown" default). -/
def verdict_step (rv : List Char → List Char) (line : List Char)
    (m0 : ProxyMetrics) (current_bytes : ℤ) (now : ℚ) : ProxyMetrics :=
  if containsSub (S ("pass")) line || containsSub (S ("block")) line then
    record_request m0 (containsSub (S ("pass")) line) (S ("unknown"))
      (extractClientName rv line) current_bytes now
  else m0

/-- Connection-open tracking: record the start time for the extracted
connection id on a pass plus tcp/connect line. -/
def connect_open_step (line : List Char) (cs : List (List Char × ℚ))
    (now : ℚ) : List (List Char × ℚ) :=
  if containsSub (S ("pass")) line && containsSub (S ("tcp/connect")) line then
    match searchConnId line with
    | some cid => setKey cs cid now
    | none => cs
  else cs

/-- Connection-close tracking: on an info: plus closed line with a known
connection id, record the elapsed duration and drop the entry. -/
def connect_close_step (line : List Char) (m1 : ProxyMetrics)
    (cs1 : List (List Char × ℚ)) (now : ℚ) :
    ProxyMetrics × List (List Char × ℚ) :=
  if containsSub (S ("info:")) line && containsSub (S ("closed")) line then
    match searchConnId line with
    | some cid =>
      match lookupKey cs1 cid with
      | some t0 => (add_connection_duration m1 (now - t0), delKey cs1 cid)
      | none => (m1, cs1)
    | none => (m1, cs1)
  else (m1, cs1)

/-- The byte-count scan at the bottom of the loop body: add any embedded
byte count found on the line to the running transfer counter. -/
def bytes_step (line : List Char) (m : ProxyMetrics) : ProxyMetrics :=
  match searchBytes line with
  | some b => { m with bytes_transferred := m.bytes_transferred + b }
  | none => m

/-- One iteration of the monitor_dante_logs loop for one log line;
current_bytes is the get_wg0_bytes reading a record_request in this
iteration would observe and now is time.time(). -/
def process_line (rv : List Char → List Char) (st : MonitorState)
    (line : List Char) (current_bytes : ℤ) (now : ℚ) : MonitorState :=
  let m1 := verdict_step rv line st.metrics current_bytes now
  let cs1 := connect_open_step line st.conn_starts now
  let p := connect_close_step line m1 cs1 now
  { metrics := bytes_step line p.1, conn_starts := p.2 }

/-
Periodic probe cycles.  A subprocess outcome is either a raised exception
(exn) or a completed run carrying the returncode; for the speed test the
parsed %-speed_download stdout is some v, or none when float() would
raise on it.
-/

inductive LatencyCycle where
  | ok (elapsed : ℚ) : LatencyCycle
  | exn : LatencyCycle
deriving DecidableEq

/-- One iteration of periodic_latency_check: elapsed seconds times 1000 on
a completed ping invocation, the -1 sentinel when it raises. -/
def latency_cycle (c : LatencyCycle) (m : ProxyMetrics) (now : ℚ) : ProxyMetrics :=
  match c with
  | .ok elapsed => update_latency m (elapsed * 1000) now
  | .exn => update_latency m (-1) now

inductive SpeedRunResult where
  | exn : SpeedRunResult
  | ok (returncode : ℤ) (speedDownload : Option ℚ) : SpeedRunResult
deriving DecidableEq

/-- One iteration of periodic_speed_test: on returncode 0 convert bytes
per second to megabits per second and store it (an unparseable stdout
raises, landing in the except branch); on a nonzero returncode fall
through; on a raised exception store the -1 sentinel. -/
def speed_test_cycle (r : SpeedRunResult) (m : ProxyMetrics) (now : ℚ) : ProxyMetrics :=
  match r with
  | .exn => update_speed m (-1) now
  | .ok rc sd =>
    if rc = 0 then
      match sd with
      | some v => update_speed m (v * 8 / 1000000) now
      | none => update_speed m (-1) now
    else m

/-
MetricsHandler.do_GET on /metrics: the rendered exposition body as a list
of output lines, in source order.  The configured proxy display name is
the constant proxy1 and literal braces are written with their escapes.
Live reads (interface bytes, process enumeration, wg show) are passed in.
-/

/-- The request-rate expression computed inline in do_GET. -/
def request_rate_per_min (m : ProxyMetrics) (now : ℚ) : ℚ :=
  if 0 < m.request_count then
    (m.request_count : ℚ) * (60 / max (now - m.last_request_time) 1)
  else 0

def infoBlock : List (List Char) :=
  [S ("# HELP proxy_info Information about the proxy"),
   S ("# TYPE proxy_info gauge"),
   S ("proxy_info\x7bproxy_name=\"proxy1\"\x7d 1"),
   S ("")]

def bytesBlock (current_transferred : ℤ) : List (List Char) :=
  [S ("# HELP proxy_bytes_transferred_total Total bytes transferred through proxy"),
   S ("# TYPE proxy_bytes_transferred_total counter"),
   S ("proxy_bytes_transferred_total\x7bproxy_name=\"proxy1\"\x7d ") ++
     intToChars current_transferred,
   S ("")]

def failedBlock (n : Nat) : List (List Char) :=
  [S ("# HELP proxy_requests_failed_total Total number of failed proxy requests"),
   S ("# TYPE proxy_requests_failed_total counter"),
   S ("proxy_requests_failed_total\x7bproxy_name=\"proxy1\"\x7d ") ++ natToChars n,
   S ("")]

def successfulBlock (n : Nat) : List (List Char) :=
  [S ("# HELP proxy_requests_successful_total Total number of successful proxy requests"),
   S ("# TYPE proxy_requests_successful_total counter"),
   S ("proxy_requests_successful_total\x7bproxy_name=\"proxy1\"\x7d ") ++ natToChars n,
   S ("")]

def successRateBlock (rate : ℚ) : List (List Char) :=
  [S ("# HELP proxy_success_rate_percent Percentage of successful requests"),
   S ("# TYPE proxy_success_rate_percent gauge"),
   S ("proxy_success_rate_percent\x7bproxy_name=\"proxy1\"\x7d ") ++ fmt2 rate,
   S ("")]

def activeConnsBlock (n : Nat) : List (List Char) :=
  [S ("# HELP proxy_active_connections Current active proxy connections"),
   S ("# TYPE proxy_active_connections gauge"),
   S ("proxy_active_connections\x7bproxy_name=\"proxy1\"\x7d ") ++ natToChars n,
   S ("")]

def rateBlock (rate : ℚ) : List (List Char) :=
  [S ("# HELP proxy_request_rate_permin Current proxy request rate per minute"),
   S ("# TYPE proxy_request_rate_permin gauge"),
   S ("proxy_request_rate_permin\x7bproxy_name=\"proxy1\"\x7d ") ++ fmt2 rate,
   S ("")]

def latencyBlock (v : ℚ) : List (List Char) :=
  [S ("# HELP proxy_latency_ms Proxy connection latency in milliseconds"),
   S ("# TYPE proxy_latency_ms gauge"),
   S ("proxy_latency_ms\x7bproxy_name=\"proxy1\"\x7d ") ++ fmt2 v,
   S ("")]

def speedBlock (v : ℚ) : List (List Char) :=
  [S ("# HELP proxy_download_speed_mbps Proxy download speed in Mbps"),
   S ("# TYPE proxy_download_speed_mbps gauge"),
   S ("proxy_download_speed_mbps\x7bproxy_name=\"proxy1\"\x7d ") ++ fmt2 v,
   S ("")]

def durationBlock (v : ℚ) : List (List Char) :=
  [S ("# HELP proxy_avg_connection_duration_seconds Average connection duration in seconds"),
   S ("# TYPE proxy_avg_connection_duration_seconds gauge"),
   S ("proxy_avg_connection_duration_seconds\x7bproxy_name=\"proxy1\"\x7d ") ++ fmt2 v,
   S ("")]

def vpnBlock (up : Bool) : List (List Char) :=
  [S ("# HELP vpn_connection_status VPN connection status (1=up, 0=down)"),
   S ("# TYPE vpn_connection_status gauge"),
   S ("vpn_connection_status\x7bproxy_name=\"proxy1\"\x7d ") ++
     (if up then S ("1") else S ("0")),
   S ("")]

/-- One proxy_requests_by_client_total sample line. -/
def clientLine (client : List Char) (count : Nat) : List Char :=
  S ("proxy_requests_by_client_total\x7bproxy_name=\"proxy1\",client=\"") ++
    sanitizeLabel client ++ S ("\"\x7d ") ++ natToChars count

/-- The per-client sample lines: zero-count clients are omitted, labels
sanitized, insertion order kept. -/
def clientLines (rbh : List (List Char × Nat)) : List (List Char) :=
  rbh.filterMap (fun p => if 0 < p.2 then some (clientLine p.1 p.2) else none)

def clientBlock (rbh : List (List Char × Nat)) : List (List Char) :=
  S ("# HELP proxy_requests_by_client_total Total requests by client container") ::
  S ("# TYPE proxy_requests_by_client_total counter") ::
  clientLines rbh

/-- The full exposition body of do_GET on /metrics, one entry per output
line, in source order; current_bytes, active_conns and wgRes are the live
external reads performed during the request and now is time.time(). -/
def metricsBody (m : ProxyMetrics) (current_bytes : ℤ) (active_conns : Nat)
    (wgRes : Option (ℤ × List Char)) (now : ℚ) : List (List Char) :=
  infoBlock ++
  bytesBlock (current_bytes - m.initial_wg0_bytes) ++
  failedBlock m.failed_requests ++
  successfulBlock m.successful_requests ++
  successRateBlock (get_success_rate m) ++
  activeConnsBlock active_conns ++
  rateBlock (request_rate_per_min m now) ++
  (if m.latency_ms ≠ 0 then latencyBlock m.latency_ms else []) ++
  (if m.download_speed_mbps ≠ 0 then speedBlock m.download_speed_mbps else []) ++
  (if m.avg_connection_duration ≠ 0 then durationBlock m.avg_connection_duration else []) ++
  vpnBlock (check_vpn_status wgRes) ++
  clientBlock m.requests_by_host ++
  [S ("")]

/-- The body emits the latency gauge exactly when a line starts with the
proxy_latency_ms sample prefix. -/
def latPat : List Char := S ("proxy_latency_ms\x7b")

def emitsLatency (body : List (List Char)) : Bool :=
  body.any (fun l => List.isPrefixOf latPat l)

/-
Call-sequence folds used to state properties over every reachable state,
plus definitions that follow the wording of the spec, kept separate from
the source translation so the two can be compared.
-/

/-- The arguments of one record_request call. -/
structure RequestCall where
  success : Bool
  host : List Char
  client : List Char
  current_bytes : ℤ
  now : ℚ

/-- Replay a sequence of record_request calls. -/
def foldRequests (m : ProxyMetrics) (calls : List RequestCall) : ProxyMetrics :=
  calls.foldl
    (fun s c => record_request s c.success c.host c.client c.current_bytes c.now) m

/-- The arguments of one record_request call issued from the log-monitoring
path, which never passes a host argument (so host stays "unknown"). -/
structure LogRecordCall where
  success : Bool
  client : List Char
  current_bytes : ℤ
  now : ℚ

/-- Replay a sequence of log-path record_request calls. -/
def foldLogRecords (m : ProxyMetrics) (calls : List LogRecordCall) : ProxyMetrics :=
  calls.foldl
    (fun s c => record_request s c.success (S ("unknown")) c.client c.current_bytes c.now) m

/-- Replay a sequence of add_connection_duration calls. -/
def foldDurations (m : ProxyMetrics) (ds : List ℚ) : ProxyMetrics :=
  ds.foldl add_connection_duration m

/-- Success rate as the spec words it: 100 when no requests were recorded,
100 times successful over total otherwise. -/
def specSuccessRate (m : ProxyMetrics) : ℚ :=
  if m.successful_requests + m.failed_requests = 0 then 100
  else 100 * (m.successful_requests : ℚ) /
    ((m.successful_requests : ℚ) + (m.failed_requests : ℚ))

/-- Request rate as the spec words it: requestCount times 60 over the
clamped time since the last request. -/
def specRequestRate (m : ProxyMetrics) (now : ℚ) : ℚ :=
  (m.request_count : ℚ) * 60 / max (now - m.last_request_time) 1

/-- Loopback address as the spec words it: an address in the 127.0.0.0/8
loopback range. -/
def isLoopback (ip : List Char) : Bool :=
  List.isPrefixOf (S ("127.")) ip

/-- A failed throughput-probe cycle as the spec words it: the run raised,
exited nonzero, or produced output that does not parse as a number. -/
def specFailedCycle (r : SpeedRunResult) : Bool :=
  match r with
  | .exn => true
  | .ok rc sd => !(rc = 0 && sd.isSome)

/-- wg show output with a peer whose handshake is 2 hours old. -/
def wgOutStale : List Char :=
  S ("interface: wg0\n  public key: (hidden)\n  listening port: 51820\n\npeer: AbCdEf=\n  endpoint: 185.65.134.66:51820\n  allowed ips: 0.0.0.0/0\n  latest handshake: 2 hours, 15 minutes, 6 seconds ago\n  transfer: 1.17 MiB received, 2.59 MiB sent")

/-- wg show output with a peer whose handshake is 45 seconds old. -/
def wgOutFresh : List Char :=
  S ("interface: wg0\n  public key: (hidden)\n  listening port: 51820\n\npeer: AbCdEf=\n  endpoint: 185.65.134.66:51820\n  allowed ips: 0.0.0.0/0\n  latest handshake: 45 seconds ago\n  transfer: 1.17 MiB received, 2.59 MiB sent")

/-- wg show output with no peer section at all. -/
def wgOutNoPeer : List Char :=
  S ("interface: wg0\n  public key: (hidden)\n  listening port: 51820")

/-
Projection lemmas for record_request, used by several claim proofs.
-/

theorem record_request_request_count (m : ProxyMetrics) (su : Bool)
    (h c : List Char) (cb : ℤ) (now : ℚ) :
    (record_request m su h c cb now).request_count = m.request_count + 1 := by
  unfold record_request
  cases su <;> by_cases hc : c ≠ S ("unknown") <;> simp [hc]

theorem record_request_successful (m : ProxyMetrics) (su : Bool)
    (h c : List Char) (cb : ℤ) (now : ℚ) :
    (record_request m su h c cb now).successful_requests =
      m.successful_requests + (if su then 1 else 0) := by
  unfold record_request
  cases su <;> by_cases hc : c ≠ S ("unknown") <;> simp [hc]

theorem record_request_failed (m : ProxyMetrics) (su : Bool)
    (h c : List Char) (cb : ℤ) (now : ℚ) :
    (record_request m su h c cb now).failed_requests =
      m.failed_requests + (if su then 0 else 1) := by
  unfold record_request
  cases su <;> by_cases hc : c ≠ S ("unknown") <;> simp [hc]

theorem record_request_map (m : ProxyMetrics) (su : Bool)
    (h c : List Char) (cb : ℤ) (now : ℚ) :
    (record_request m su h c cb now).requests_by_host =
      if c ≠ S ("unknown") then bumpKey (bumpKey m.requests_by_host h) c
      else bumpKey m.requests_by_host h := by
  unfold record_request
  cases su <;> by_cases hc : c ≠ S ("unknown") <;> simp [hc]

theorem record_request_bytes (m : ProxyMetrics) (su : Bool)
    (h c : List Char) (cb : ℤ) (now : ℚ) :
    (record_request m su h c cb now).bytes_transferred =
      cb - m.initial_wg0_bytes := by
  unfold record_request
  cases su <;> by_cases hc : c ≠ S ("unknown") <;> simp [hc]

theorem record_request_initial (m : ProxyMetrics) (su : Bool)
    (h c : List Char) (cb : ℤ) (now : ℚ) :
    (record_request m su h c cb now).initial_wg0_bytes = m.initial_wg0_bytes := by
  unfold record_request
  cases su <;> by_cases hc : c ≠ S ("unknown") <;> simp [hc]

/-- Auxiliary induction for the request-count invariant. -/
theorem foldRequests_inv (calls : List RequestCall) :
    ∀ m : ProxyMetrics,
      m.request_count = m.successful_requests + m.failed_requests →
      (foldRequests m calls).request_count =
        (foldRequests m calls).successful_requests +
          (foldRequests m calls).failed_requests := by
  induction calls with
  | nil => intro m hm; simpa [foldRequests] using hm
  | cons c t ih =>
    intro m hm
    have hstep :
        (record_request m c.success c.host c.client c.current_bytes c.now).request_count =
          (record_request m c.success c.host c.client c.current_bytes c.now).successful_requests +
            (record_request m c.success c.host c.client c.current_bytes c.now).failed_requests := by
      rw [record_request_request_count, record_request_successful, record_request_failed]
      cases c.success <;> simp <;> omega
    have := ih (record_request m c.success c.host c.client c.current_bytes c.now) hstep
    simpa [foldRequests] using this

/-- C1: after every sequence of record_request calls (arbitrary success
flag, host and client on each), request_count equals
successful_requests plus failed_requests, since each call increments
request_count and exactly one of the two outcome counters. -/
theorem request_count_invariant (t0 : ℚ) (b0 : ℤ) (calls : List RequestCall) :
    (foldRequests (init t0 b0) calls).request_count =
      (foldRequests (init t0 b0) calls).successful_requests +
        (foldRequests (init t0 b0) calls).failed_requests := by
  exact foldRequests_inv calls (init t0 b0) (by simp [init])

/-- C2: get_success_rate is exactly 100 when no requests have been
recorded and 100 times successful over total otherwise; in particular a
state reached by recording three successes and one failure yields 75. -/
theorem success_rate_spec :
    (∀ m : ProxyMetrics, get_success_rate m = specSuccessRate m) ∧
    get_success_rate (foldRequests (init 0 0)
      [⟨true, S ("unknown"), S ("unknown"), 0, 1⟩,
       ⟨true, S ("unknown"), S ("unknown"), 0, 2⟩,
       ⟨true, S ("unknown"), S ("unknown"), 0, 3⟩,
       ⟨false, S ("unknown"), S ("unknown"), 0, 4⟩]) = 75 := by
  constructor
  · intro m
    unfold get_success_rate specSuccessRate
    by_cases h : m.successful_requests + m.failed_requests = 0
    · simp [h]
    · have hq : ((m.successful_requests + m.failed_requests : ℕ) : ℚ) ≠ 0 := by
        exact_mod_cast h
      simp only [h, if_neg h, push_cast]
      push_cast
      rw [div_mul_eq_mul_div, mul_comm]
    
  · set M := foldRequests (init 0 0)
      [⟨true, S ("unknown"), S ("unknown"), 0, 1⟩,
       ⟨true, S ("unknown"), S ("unknown"), 0, 2⟩,
       ⟨true, S ("unknown"), S ("unknown"), 0, 3⟩,
       ⟨false, S ("unknown"), S ("unknown"), 0, 4⟩] with hM
    have hs : M.successful_requests = 3 := by
      simp [hM, foldRequests, record_request_successful, init]
    have hf : M.failed_requests = 1 := by
      simp [hM, foldRequests, record_request_failed, init]
    simp only [get_success_rate, hs, hf]
    norm_num

/-
Ring-buffer lemmas for add_connection_duration.
-/

theorem add_duration_buffer (m : ProxyMetrics) (d : ℚ) :
    (add_connection_duration m d).connection_durations =
      if 100 < m.connection_durations.length + 1 then
        (m.connection_durations ++ [d]).tail
      else m.connection_durations ++ [d] := by
  unfold add_connection_duration
  simp [List.length_append]

theorem add_duration_avg (m : ProxyMetrics) (d : ℚ) :
    (add_connection_duration m d).avg_connection_duration =
      (add_connection_duration m d).connection_durations.sum /
        ((add_connection_duration m d).connection_durations.length : ℚ) := by
  simp only [add_connection_duration]
  split
  next h =>
    have hne : (m.connection_durations ++ [d]).tail ≠ [] := by
      intro hcon
      have hl : (m.connection_durations ++ [d]).tail.length = 0 := by rw [hcon]; rfl
      rw [List.length_tail] at hl
      simp only [List.length_append, List.length_cons, List.length_nil] at hl h
      omega
    simp [hne]
  next h =>
    have hne : m.connection_durations ++ [d] ≠ [] := by simp
    simp [hne]

theorem foldDurations_append_one (m : ProxyMetrics) (ds : List ℚ) (d : ℚ) :
    foldDurations m (ds ++ [d]) = add_connection_duration (foldDurations m ds) d := by
  simp [foldDurations, List.foldl_append]

/-- The buffer after replaying any duration sequence from the start state
holds exactly the last 100 entries (all of them while at most 100). -/
theorem foldDurations_buffer (t0 : ℚ) (b0 : ℤ) (ds : List ℚ) :
    (foldDurations (init t0 b0) ds).connection_durations =
      ds.drop (ds.length - 100) := by
  induction ds using List.reverseRecOn with
  | nil => simp [foldDurations, init]
  | append_singleton ds d ih =>
    rw [foldDurations_append_one, add_duration_buffer, ih]
    by_cases h : ds.length + 1 ≤ 100
    · have h1 : ds.length - 100 = 0 := by omega
      have h2 : (ds ++ [d]).length - 100 = 0 := by
        simp only [List.length_append, List.length_cons, List.length_nil]
        omega
      rw [h1, List.drop_zero, h2, List.drop_zero]
      rw [if_neg (by omega)]
    · have h100 : 100 ≤ ds.length := by omega
      have hlen : (ds.drop (ds.length - 100)).length = 100 := by
        simp only [List.length_drop]; omega
      rw [if_pos (by rw [hlen]; omega)]
      cases hb : ds.drop (ds.length - 100) with
      | nil => rw [hb] at hlen; simp at hlen
      | cons x xs =>
        have hxs : xs = ds.drop (ds.length - 100 + 1) := by
          have ht := congrArg List.tail hb
          simpa [List.tail_drop] using ht.symm
        have harith : ds.length - 100 + 1 = ds.length - 99 := by omega
        have hle : ds.length - 99 ≤ ds.length := by omega
        simp only [List.cons_append, List.tail_cons]
        rw [hxs, harith]
        simp only [List.length_append, List.length_cons, List.length_nil]
        have harith2 : ds.length + (0 + 1) - 100 = ds.length - 99 := by omega
        rw [harith2, List.drop_append_of_le_length hle]

/-- After any nonempty replay the stored average is the arithmetic mean of
the stored buffer. -/
theorem foldDurations_avg (t0 : ℚ) (b0 : ℤ) (ds : List ℚ) (hne : ds ≠ []) :
    (foldDurations (init t0 b0) ds).avg_connection_duration =
      (foldDurations (init t0 b0) ds).connection_durations.sum /
        ((foldDurations (init t0 b0) ds).connection_durations.length : ℚ) := by
  induction ds using List.reverseRecOn with
  | nil => exact absurd rfl hne
  | append_singleton ds d _ =>
    rw [foldDurations_append_one, add_duration_avg]

/-- C3: after every add_connection_duration call the buffer holds at most
100 entries; after 150 calls with strictly increasing values it holds
exactly the last 100 values in order (oldest evicted first) and the
stored average is their arithmetic mean; and after any nonempty call
sequence the stored average is the arithmetic mean of the current buffer
contents. -/
theorem connection_durations_bound_and_mean (t0 : ℚ) (b0 : ℤ) :
    (∀ ds : List ℚ,
      (foldDurations (init t0 b0) ds).connection_durations.length ≤ 100) ∧
    (∀ ds : List ℚ, ds.length = 150 → ds.Pairwise (· < ·) →
      (foldDurations (init t0 b0) ds).connection_durations = ds.drop 50 ∧
      (foldDurations (init t0 b0) ds).avg_connection_duration =
        (ds.drop 50).sum / 100) ∧
    (∀ ds : List ℚ, ds ≠ [] →
      (foldDurations (init t0 b0) ds).avg_connection_duration =
        (foldDurations (init t0 b0) ds).connection_durations.sum /
          ((foldDurations (init t0 b0) ds).connection_durations.length : ℚ)) := by
  refine ⟨?_, ?_, foldDurations_avg t0 b0⟩
  · intro ds
    rw [foldDurations_buffer]
    simp only [List.length_drop]
    omega
  · intro ds h150 _
    have hbuf : (foldDurations (init t0 b0) ds).connection_durations = ds.drop 50 := by
      rw [foldDurations_buffer, h150]
    refine ⟨hbuf, ?_⟩
    have hne : ds ≠ [] := by
      intro hcon; rw [hcon] at h150; simp at h150
    rw [foldDurations_avg t0 b0 ds hne, hbuf]
    have hlenq : (((ds.drop 50).length : ℕ) : ℚ) = 100 := by
      have hl : (ds.drop 50).length = 100 := by
        simp only [List.length_drop, h150]
      rw [hl]
      norm_num
    rw [hlenq]

/-- Witness for C3: all hypotheses hold at the concrete strictly
increasing duration sequence 0, 1, ..., 149 and the conclusions follow. -/
theorem connection_durations_witness :
    (((List.range 150).map (fun n : ℕ => (n : ℚ))).length = 150 ∧
     ((List.range 150).map (fun n : ℕ => (n : ℚ))).Pairwise (· < ·) ∧
     (List.range 150).map (fun n : ℕ => (n : ℚ)) ≠ []) ∧
    ((foldDurations (init 0 0) ((List.range 150).map (fun n : ℕ => (n : ℚ)))).connection_durations =
      ((List.range 150).map (fun n : ℕ => (n : ℚ))).drop 50 ∧
     (foldDurations (init 0 0) ((List.range 150).map (fun n : ℕ => (n : ℚ)))).avg_connection_duration =
      (((List.range 150).map (fun n : ℕ => (n : ℚ))).drop 50).sum / 100) ∧
    (foldDurations (init 0 0) ((List.range 150).map (fun n : ℕ => (n : ℚ)))).avg_connection_duration =
      (foldDurations (init 0 0) ((List.range 150).map (fun n : ℕ => (n : ℚ)))).connection_durations.sum /
        ((foldDurations (init 0 0) ((List.range 150).map (fun n : ℕ => (n : ℚ)))).connection_durations.length : ℚ) :=
  ⟨⟨by simp,
    List.Pairwise.map (fun n : ℕ => (n : ℚ))
      (fun a b h => by simpa using (Nat.cast_lt (α := ℚ)).mpr h)
      (List.pairwise_lt_range 150),
    by simp⟩,
   (connection_durations_bound_and_mean 0 0).2.1 ((List.range 150).map (fun n : ℕ => (n : ℚ)))
     (by simp)
     (List.Pairwise.map (fun n : ℕ => (n : ℚ))
       (fun a b h => by simpa using (Nat.cast_lt (α := ℚ)).mpr h)
       (List.pairwise_lt_range 150)),
   (connection_durations_bound_and_mean 0 0).2.2 ((List.range 150).map (fun n : ℕ => (n : ℚ)))
     (by simp)⟩

/-- C4: check_vpn_status returns true only when the invocation succeeded
with exit code 0, the status output names a configured peer, a handshake
line is present, and the handshake info is fresher than the 3-minute
staleness threshold; it is false on invocation failure, false for a
2-hour-old handshake, true for a 45-second-old handshake, and false when
no peer section is present. -/
theorem check_vpn_status_spec :
    check_vpn_status none = false ∧
    (∀ (rc : ℤ) (out : List Char),
      check_vpn_status (some (rc, out)) = true →
      rc = 0 ∧ containsSub (S ("peer:")) out = true ∧
      containsSub lhSep out = true ∧
      handshakeFresh (extractHandshakeInfo out) = true) ∧
    check_vpn_status (some (0, wgOutStale)) = false ∧
    check_vpn_status (some (0, wgOutFresh)) = true ∧
    check_vpn_status (some (0, wgOutNoPeer)) = false := by
  refine ⟨rfl, ?_, by decide, by decide, by decide⟩
  intro rc out h
  simp only [check_vpn_status] at h
  by_cases hrc : rc = 0
  · subst hrc
    rw [if_pos rfl] at h
    by_cases hp : containsSub (S ("peer:")) out
    · rw [if_neg (by simp [hp])] at h
      by_cases hl : containsSub lhSep out
      · rw [if_pos hl] at h
        refine ⟨rfl, hp, hl, ?_⟩
        cases hf : (splitOnChar '\n' out).filter (fun l => containsSub lhSep l) with
        | nil => rw [hf] at h; simp at h
        | cons hd tl =>
          rw [hf] at h
          unfold extractHandshakeInfo handshakeFresh
          rw [hf]
          simp only at h
          by_cases hdh :
              (containsSub (S ("day")) (strip (List.getLastD (splitSub lhSep hd) [])) ||
               containsSub (S ("hour")) (strip (List.getLastD (splitSub lhSep hd) []))) = true
          · rw [if_pos hdh] at h; exact absurd h (by simp)
          · rw [if_neg hdh] at h
            rw [Bool.not_eq_true] at hdh
            rw [hdh]
            cases hm : reSearchMinutes (strip (List.getLastD (splitSub lhSep hd) [])) with
            | none => simp
            | some mval =>
              rw [hm] at h
              by_cases hm3 : 3 < mval
              · simp [hm3] at h
              · simp
                omega
      · rw [if_neg hl] at h; exact absurd h (by simp)
    · rw [if_pos (by simp [hp])] at h; exact absurd h (by simp)
  · rw [if_neg hrc] at h; exact absurd h (by simp)

/-- Witness for C4 at the fresh-handshake status output, for which
check_vpn_status evaluates to true. -/
theorem check_vpn_status_witness :
    (0 : ℤ) = 0 ∧ containsSub (S ("peer:")) wgOutFresh = true ∧
    containsSub lhSep wgOutFresh = true ∧
    handshakeFresh (extractHandshakeInfo wgOutFresh) = true :=
  check_vpn_status_spec.2.1 0 wgOutFresh (by decide)

/-- C7 counterexample: a throughput-probe cycle whose download command
completes with a nonzero exit code is a failed cycle, yet the stored
speed stays at its initial 0 rather than being set to the -1 sentinel,
refuting the claim that every failing cycle writes -1. -/
theorem speed_sentinel_counterexample :
    specFailedCycle (SpeedRunResult.ok 7 none) = true ∧
    (speed_test_cycle (SpeedRunResult.ok 7 none) (init 0 0) 5).download_speed_mbps = 0 ∧
    speed_test_cycle (SpeedRunResult.ok 7 none) (init 0 0) 5 = init 0 0 ∧
    (0 : ℚ) ≠ -1 := by
  refine ⟨rfl, rfl, rfl, by norm_num⟩

/-- C7 amended: cycles that raise an exception, including the case of an
exit code 0 run whose output does not parse as a number, write the -1
sentinel; but a cycle whose command completes with a nonzero exit code
writes nothing, leaving the whole metrics state unchanged. -/
theorem speed_test_failure_paths (m : ProxyMetrics) (now : ℚ) :
    (speed_test_cycle SpeedRunResult.exn m now).download_speed_mbps = -1 ∧
    (speed_test_cycle (SpeedRunResult.ok 0 none) m now).download_speed_mbps = -1 ∧
    (∀ v : ℚ, (speed_test_cycle (SpeedRunResult.ok 0 (some v)) m now).download_speed_mbps =
      v * 8 / 1000000) ∧
    (∀ (rc : ℤ) (sd : Option ℚ), rc ≠ 0 →
      speed_test_cycle (SpeedRunResult.ok rc sd) m now = m) := by
  refine ⟨rfl, rfl, fun v => rfl, ?_⟩
  intro rc sd hrc
  simp [speed_test_cycle, hrc]

/-- Witness for C7 at the concrete nonzero exit code 7. -/
theorem speed_test_failure_witness :
    (7 : ℤ) ≠ 0 ∧
    speed_test_cycle (SpeedRunResult.ok 7 none) (init 2 3) 5 = init 2 3 :=
  ⟨by decide, (speed_test_failure_paths (init 2 3) 5).2.2.2 7 none (by decide)⟩

/-
Prefix-scan lemmas for the latency-block emission analysis of the body.
-/

theorem isPrefixOf_append_of_le (p a x : List Char) (h : p.length ≤ a.length) :
    List.isPrefixOf p (a ++ x) = List.isPrefixOf p a := by
  induction p generalizing a with
  | nil => simp [List.isPrefixOf]
  | cons c cs ih =>
    cases a with
    | nil => simp at h
    | cons b bs =>
      simp only [List.cons_append, List.isPrefixOf]
      congr 1
      exact ih bs (by simpa using h)

theorem latPat_pred_append (a x : List Char) (h : latPat.length ≤ a.length) :
    List.isPrefixOf latPat (a ++ x) = List.isPrefixOf latPat a :=
  isPrefixOf_append_of_le latPat a x h

theorem noLat_infoBlock :
    infoBlock.any (fun l => List.isPrefixOf latPat l) = false := by decide

theorem noLat_bytesBlock (ct : ℤ) :
    (bytesBlock ct).any (fun l => List.isPrefixOf latPat l) = false := by
  simp only [bytesBlock, List.any_cons, List.any_nil]
  rw [latPat_pred_append _ _ (by decide)]
  decide

theorem noLat_failedBlock (n : Nat) :
    (failedBlock n).any (fun l => List.isPrefixOf latPat l) = false := by
  simp only [failedBlock, List.any_cons, List.any_nil]
  rw [latPat_pred_append _ _ (by decide)]
  decide

theorem noLat_successfulBlock (n : Nat) :
    (successfulBlock n).any (fun l => List.isPrefixOf latPat l) = false := by
  simp only [successfulBlock, List.any_cons, List.any_nil]
  rw [latPat_pred_append _ _ (by decide)]
  decide

theorem noLat_successRateBlock (r : ℚ) :
    (successRateBlock r).any (fun l => List.isPrefixOf latPat l) = false := by
  simp only [successRateBlock, List.any_cons, List.any_nil]
  rw [latPat_pred_append _ _ (by decide)]
  decide

theorem noLat_activeConnsBlock (n : Nat) :
    (activeConnsBlock n).any (fun l => List.isPrefixOf latPat l) = false := by
  simp only [activeConnsBlock, List.any_cons, List.any_nil]
  rw [latPat_pred_append _ _ (by decide)]
  decide

theorem noLat_rateBlock (r : ℚ) :
    (rateBlock r).any (fun l => List.isPrefixOf latPat l) = false := by
  simp only [rateBlock, List.any_cons, List.any_nil]
  rw [latPat_pred_append _ _ (by decide)]
  decide

theorem noLat_speedBlock (r : ℚ) :
    (speedBlock r).any (fun l => List.isPrefixOf latPat l) = false := by
  simp only [speedBlock, List.any_cons, List.any_nil]
  rw [latPat_pred_append _ _ (by decide)]
  decide

theorem noLat_durationBlock (r : ℚ) :
    (durationBlock r).any (fun l => List.isPrefixOf latPat l) = false := by
  simp only [durationBlock, List.any_cons, List.any_nil]
  rw [latPat_pred_append _ _ (by decide)]
  decide

theorem noLat_vpnBlock (b : Bool) :
    (vpnBlock b).any (fun l => List.isPrefixOf latPat l) = false := by
  simp only [vpnBlock, List.any_cons, List.any_nil]
  rw [latPat_pred_append _ _ (by decide)]
  cases b <;> decide

theorem noLat_clientLines (rbh : List (List Char × Nat)) :
    (clientLines rbh).any (fun l => List.isPrefixOf latPat l) = false := by
  induction rbh with
  | nil => rfl
  | cons p t ih =>
    by_cases hp : 0 < p.2
    · simp only [clientLines, List.filterMap_cons, if_pos hp]
      simp only [List.any_cons]
      rw [show clientLine p.1 p.2 =
          S ("proxy_requests_by_client_total\x7bproxy_name=\"proxy1\",client=\"") ++
            (sanitizeLabel p.1 ++ (S ("\"\x7d ") ++ natToChars p.2)) from by
        simp [clientLine]]
      rw [latPat_pred_append _ _ (by decide)]
      simp only [clientLines] at ih
      rw [ih]
      decide
    · simp only [clientLines, List.filterMap_cons, if_neg hp]
      simpa [clientLines] using ih

theorem noLat_clientBlock (rbh : List (List Char × Nat)) :
    (clientBlock rbh).any (fun l => List.isPrefixOf latPat l) = false := by
  simp only [clientBlock, List.any_cons]
  rw [noLat_clientLines]
  decide

theorem yesLat_latencyBlock (v : ℚ) :
    (latencyBlock v).any (fun l => List.isPrefixOf latPat l) = true := by
  simp only [latencyBlock, List.any_cons, List.any_nil]
  rw [latPat_pred_append _ _ (by decide)]
  decide

theorem noLat_ite (c : Prop) [Decidable c] (blk : List (List Char))
    (hblk : blk.any (fun l => List.isPrefixOf latPat l) = false) :
    (if c then blk else []).any (fun l => List.isPrefixOf latPat l) = false := by
  split
  · exact hblk
  · rfl

theorem noLat_emptyLine :
    ([S ("")] : List (List Char)).any (fun l => List.isPrefixOf latPat l) = false := by
  decide

/-- The body carries a proxy_latency_ms sample exactly when the stored
latency gauge is nonzero. -/
theorem emitsLatency_metricsBody (m : ProxyMetrics) (cb : ℤ) (ac : Nat)
    (wg : Option (ℤ × List Char)) (now : ℚ) :
    emitsLatency (metricsBody m cb ac wg now) = decide (m.latency_ms ≠ 0) := by
  unfold emitsLatency metricsBody
  simp only [List.any_append]
  rw [noLat_infoBlock, noLat_bytesBlock, noLat_failedBlock, noLat_successfulBlock,
    noLat_successRateBlock, noLat_activeConnsBlock, noLat_rateBlock,
    noLat_ite _ _ (noLat_speedBlock m.download_speed_mbps),
    noLat_ite _ _ (noLat_durationBlock m.avg_connection_duration),
    noLat_vpnBlock, noLat_clientBlock, noLat_emptyLine]
  by_cases h : m.latency_ms = 0
  · rw [if_neg (by simp [h])]
    simp [h]
  · rw [if_pos h, yesLat_latencyBlock]
    simp [h]

theorem fmt2_round_neg_one : roundHalfEven ((-1 : ℚ) * 100) = -100 := by
  norm_num [roundHalfEven, Rat.floor]

theorem fmt2_neg_one : fmt2 (-1) = S ("-1.00") := by
  unfold fmt2
  rw [fmt2_round_neg_one]
  decide

/-- C5 counterexample: a latency probe cycle that completes with a
measured elapsed time of exactly 0 stores latency 0, and the rendered
body still omits the proxy_latency_ms block even though a probe has
completed (its completion timestamp is recorded), refuting the claim
that the block is included for every state after a completed probe. -/
theorem latency_omitted_after_probe_counterexample :
    (latency_cycle (LatencyCycle.ok 0) (init 0 0) 5).latency_last_check = 5 ∧
    (latency_cycle (LatencyCycle.ok 0) (init 0 0) 5).latency_ms = 0 ∧
    emitsLatency (metricsBody (latency_cycle (LatencyCycle.ok 0) (init 0 0) 5) 0 0 none 5) =
      false := by
  refine ⟨rfl, ?_, ?_⟩
  · show (0 : ℚ) * 1000 = 0
    norm_num
  · rw [emitsLatency_metricsBody]
    simp [latency_cycle, update_latency]

/-- C5 amended: the body omits the proxy_latency_ms block exactly while
the stored latency gauge is 0: it is omitted in the initial state, it is
included after any update storing a nonzero value, and after a failed
probe cycle the stored -1 sentinel is rendered as the sample line with
value -1.00; a probe that stores exactly 0 (measured zero elapsed time)
leaves the block omitted. -/
theorem latency_block_emission :
    (∀ (t0 now2 : ℚ) (b0 cb : ℤ) (ac : Nat) (wg : Option (ℤ × List Char)),
      emitsLatency (metricsBody (init t0 b0) cb ac wg now2) = false) ∧
    (∀ (m : ProxyMetrics) (v tn : ℚ), v ≠ 0 →
      ∀ (cb : ℤ) (ac : Nat) (wg : Option (ℤ × List Char)) (now2 : ℚ),
      emitsLatency (metricsBody (update_latency m v tn) cb ac wg now2) = true) ∧
    (∀ (m : ProxyMetrics) (tn : ℚ) (cb : ℤ) (ac : Nat)
        (wg : Option (ℤ × List Char)) (now2 : ℚ),
      fmt2 (-1) = S ("-1.00") ∧
      (S ("proxy_latency_ms\x7bproxy_name=\"proxy1\"\x7d ") ++ fmt2 (-1)) ∈
        metricsBody (latency_cycle LatencyCycle.exn m tn) cb ac wg now2) := by
  refine ⟨?_, ?_, ?_⟩
  · intro t0 now2 b0 cb ac wg
    rw [emitsLatency_metricsBody]
    simp [init]
  · intro m v tn hv cb ac wg now2
    rw [emitsLatency_metricsBody]
    simp [update_latency, hv]
  · intro m tn cb ac wg now2
    refine ⟨fmt2_neg_one, ?_⟩
    have hne : (latency_cycle LatencyCycle.exn m tn).latency_ms = -1 := rfl
    have hmem : (S ("proxy_latency_ms\x7bproxy_name=\"proxy1\"\x7d ") ++ fmt2 (-1)) ∈
        latencyBlock (-1) := by simp [latencyBlock]
    unfold metricsBody
    rw [hne]
    rw [if_pos (show ((-1 : ℚ) ≠ 0) from by norm_num)]
    simp only [List.mem_append]
    tauto

/-- Witness for C5 at the concrete nonzero stored value -1. -/
theorem latency_block_emission_witness :
    ((-1 : ℚ) ≠ 0) ∧
    emitsLatency (metricsBody (update_latency (init 0 0) (-1) 3) 0 0 none 3) = true :=
  ⟨by simp, latency_block_emission.2.1 (init 0 0) (-1) 3 (by simp) 0 0 none 3⟩

/-
Step lemmas for the monitor loop body.
-/

theorem process_line_metrics (rv : List Char → List Char) (st : MonitorState)
    (line : List Char) (cb : ℤ) (now : ℚ) :
    (process_line rv st line cb now).metrics =
      bytes_step line (connect_close_step line (verdict_step rv line st.metrics cb now)
        (connect_open_step line st.conn_starts now) now).1 := rfl

theorem bytes_step_bytes (line : List Char) (m : ProxyMetrics) :
    (bytes_step line m).bytes_transferred =
      match searchBytes line with
      | some b => m.bytes_transferred + (b : ℤ)
      | none => m.bytes_transferred := by
  unfold bytes_step
  cases searchBytes line <;> rfl

theorem bytes_step_map (line : List Char) (m : ProxyMetrics) :
    (bytes_step line m).requests_by_host = m.requests_by_host := by
  unfold bytes_step
  cases searchBytes line <;> rfl

theorem connect_close_bytes (line : List Char) (m : ProxyMetrics)
    (cs : List (List Char × ℚ)) (now : ℚ) :
    (connect_close_step line m cs now).1.bytes_transferred = m.bytes_transferred := by
  unfold connect_close_step
  split
  · split
    · split
      · rfl
      · rfl
    · rfl
  · rfl

theorem connect_close_map (line : List Char) (m : ProxyMetrics)
    (cs : List (List Char × ℚ)) (now : ℚ) :
    (connect_close_step line m cs now).1.requests_by_host = m.requests_by_host := by
  unfold connect_close_step
  split
  · split
    · split
      · rfl
      · rfl
    · rfl
  · rfl

theorem verdict_step_bytes (rv : List Char → List Char) (line : List Char)
    (m0 : ProxyMetrics) (cb : ℤ) (now : ℚ) :
    (verdict_step rv line m0 cb now).bytes_transferred =
      if containsSub (S ("pass")) line || containsSub (S ("block")) line
      then cb - m0.initial_wg0_bytes else m0.bytes_transferred := by
  by_cases hC : (containsSub (S ("pass")) line || containsSub (S ("block")) line) = true
  · simp only [verdict_step, if_pos hC, record_request_bytes]
  · simp only [verdict_step, if_neg hC]

theorem verdict_step_map (rv : List Char → List Char) (line : List Char)
    (m0 : ProxyMetrics) (cb : ℤ) (now : ℚ) :
    (verdict_step rv line m0 cb now).requests_by_host =
      if containsSub (S ("pass")) line || containsSub (S ("block")) line then
        (if extractClientName rv line ≠ S ("unknown") then
          bumpKey (bumpKey m0.requests_by_host (S ("unknown"))) (extractClientName rv line)
        else bumpKey m0.requests_by_host (S ("unknown")))
      else m0.requests_by_host := by
  by_cases hC : (containsSub (S ("pass")) line || containsSub (S ("block")) line) = true
  · simp only [verdict_step, if_pos hC, record_request_map]
  · simp only [verdict_step, if_neg hC]

theorem process_line_map (rv : List Char → List Char) (st : MonitorState)
    (line : List Char) (cb : ℤ) (now : ℚ) :
    (process_line rv st line cb now).metrics.requests_by_host =
      if containsSub (S ("pass")) line || containsSub (S ("block")) line then
        (if extractClientName rv line ≠ S ("unknown") then
          bumpKey (bumpKey st.metrics.requests_by_host (S ("unknown")))
            (extractClientName rv line)
        else bumpKey st.metrics.requests_by_host (S ("unknown")))
      else st.metrics.requests_by_host := by
  rw [process_line_metrics, bytes_step_map, connect_close_map, verdict_step_map]

/-
Association-list counter lemmas.
-/

theorem lookupCount_bumpKey_self (l : List (List Char × Nat)) (k : List Char) :
    lookupCount (bumpKey l k) k = lookupCount l k + 1 := by
  induction l with
  | nil => simp [bumpKey, lookupCount]
  | cons p t ih =>
    obtain ⟨k0, n⟩ := p
    by_cases h : k0 = k
    · simp [bumpKey, lookupCount, h]
    · simp [bumpKey, lookupCount, h, ih]

theorem lookupCount_bumpKey_ne (l : List (List Char × Nat)) (k0 k : List Char)
    (h : k ≠ k0) :
    lookupCount (bumpKey l k0) k = lookupCount l k := by
  induction l with
  | nil => simp [bumpKey, lookupCount, Ne.symm h]
  | cons p t ih =>
    obtain ⟨k1, n⟩ := p
    by_cases h1 : k1 = k0
    · subst h1
      simp [bumpKey, lookupCount, Ne.symm h]
    · by_cases h2 : k1 = k <;> simp [bumpKey, lookupCount, h1, h2, h, ih]

theorem lookupCount_mem (l : List (List Char × Nat)) (k : List Char) (n : Nat)
    (hl : lookupCount l k = n) (hn : 0 < n) : (k, n) ∈ l := by
  induction l with
  | nil => simp only [lookupCount] at hl; omega
  | cons p t ih =>
    obtain ⟨k0, m⟩ := p
    simp only [lookupCount] at hl
    by_cases h0 : k0 = k
    · rw [if_pos h0] at hl
      subst h0
      subst hl
      exact List.mem_cons_self _ _
    · rw [if_neg h0] at hl
      exact List.mem_cons_of_mem _ (ih hl)

/-- C6 counterexample: 127.0.0.2 is a loopback address, yet a pass line
with that client address is attributed: the resolver is consulted (here
the sanitizing fallback) and a loopback-derived entry appears in the
per-client request map, refuting the claim that every loopback address is
excluded from client attribution. -/
theorem loopback_counterexample :
    isLoopback (S ("127.0.0.2")) = true ∧
    searchClient (S ("info: pass(1): tcp/accept ]: 127.0.0.2.52345 172.23.0.5.1080")) =
      some (S ("127.0.0.2")) ∧
    S ("127_0_0_2") ≠ S ("unknown") ∧
    lookupCount (process_line fallbackResolver ⟨init 0 0, []⟩
        (S ("info: pass(1): tcp/accept ]: 127.0.0.2.52345 172.23.0.5.1080")) 0 1).metrics.requests_by_host
      (S ("127_0_0_2")) = 1 ∧
    lookupCount ((⟨init 0 0, []⟩ : MonitorState).metrics.requests_by_host)
      (S ("127_0_0_2")) = 0 :=
  ⟨by decide, by decide, by decide, by decide, by decide⟩

/-- C6 amended: only the exact client address 127.0.0.1 is excluded from
client attribution: for a line whose extracted client address is
127.0.0.1 no resolution is attempted (the outcome is independent of the
resolver) and the per-client request map is unchanged at every key other
than the "unknown" default bucket. -/
theorem loopback_exact_exclusion (rv rv2 : List Char → List Char)
    (st : MonitorState) (line : List Char) (cb : ℤ) (now : ℚ)
    (h : searchClient line = some (S ("127.0.0.1"))) :
    process_line rv st line cb now = process_line rv2 st line cb now ∧
    ∀ k : List Char, k ≠ S ("unknown") →
      lookupCount (process_line rv st line cb now).metrics.requests_by_host k =
        lookupCount st.metrics.requests_by_host k := by
  have hcn : ∀ rva : List Char → List Char, extractClientName rva line = S ("unknown") := by
    intro rva
    unfold extractClientName
    rw [h]
    simp
  constructor
  · unfold process_line verdict_step
    rw [hcn rv, hcn rv2]
  · intro k hk
    rw [process_line_map, hcn rv]
    by_cases hC : (containsSub (S ("pass")) line || containsSub (S ("block")) line) = true
    · rw [if_pos hC, if_neg (by simp)]
      exact lookupCount_bumpKey_ne _ _ _ hk
    · rw [if_neg hC]

/-- Witness for C6 at a concrete pass line whose client address is
exactly 127.0.0.1. -/
theorem loopback_exclusion_witness :
    (searchClient (S ("info: pass(1): tcp/accept ]: 127.0.0.1.52345 172.23.0.5.1080")) =
       some (S ("127.0.0.1")) ∧
     S ("client_x") ≠ S ("unknown")) ∧
    process_line fallbackResolver ⟨init 0 0, []⟩
        (S ("info: pass(1): tcp/accept ]: 127.0.0.1.52345 172.23.0.5.1080")) 0 1 =
      process_line altResolver ⟨init 0 0, []⟩
        (S ("info: pass(1): tcp/accept ]: 127.0.0.1.52345 172.23.0.5.1080")) 0 1 ∧
    lookupCount (process_line fallbackResolver ⟨init 0 0, []⟩
        (S ("info: pass(1): tcp/accept ]: 127.0.0.1.52345 172.23.0.5.1080")) 0 1).metrics.requests_by_host
      (S ("client_x")) =
      lookupCount ((⟨init 0 0, []⟩ : MonitorState).metrics.requests_by_host)
        (S ("client_x")) :=
  ⟨⟨by decide, by decide⟩,
   (loopback_exact_exclusion fallbackResolver altResolver ⟨init 0 0, []⟩
     (S ("info: pass(1): tcp/accept ]: 127.0.0.1.52345 172.23.0.5.1080")) 0 1 (by decide)).1,
   (loopback_exact_exclusion fallbackResolver altResolver ⟨init 0 0, []⟩
     (S ("info: pass(1): tcp/accept ]: 127.0.0.1.52345 172.23.0.5.1080")) 0 1 (by decide)).2
     (S ("client_x")) (by decide)⟩

/-- C8 counterexample: a log line carrying an embedded byte count raises
the running transfer counter to 500, but a following verdict line whose
record_request recomputes bytesTransferred from the interface delta
overwrites it back to 0: the log-accumulated bytes are not preserved,
refuting the claim that the two byte-accounting signals are independent. -/
theorem bytes_overwrite_counterexample :
    (process_line fallbackResolver ⟨init 0 0, []⟩
        (S ("info: data: 500 bytes")) 0 1).metrics.bytes_transferred = 500 ∧
    (process_line fallbackResolver
        (process_line fallbackResolver ⟨init 0 0, []⟩ (S ("info: data: 500 bytes")) 0 1)
        (S ("info: pass(1): tcp/accept ]: 172.23.0.10.52345 172.23.0.5.1080")) 0 2).metrics.bytes_transferred = 0 ∧
    (500 : ℤ) ≠ 0 :=
  ⟨by decide, by decide, by decide⟩

/-- C8 amended: the transfer counter after one monitor-loop iteration is
fully characterized as follows: a verdict line first overwrites
bytesTransferred with the interface delta currentBytes minus
initialBytes, discarding whatever the log-line byte scan had accumulated,
and then any embedded byte count on the same line is added on top; on a
non-verdict line the embedded byte count is added to the previous value.
The two byte-accounting paths therefore share one field and the
log-accumulated signal survives only until the next record_request. -/
theorem bytes_transferred_characterization (rv : List Char → List Char)
    (st : MonitorState) (line : List Char) (cb : ℤ) (now : ℚ) :
    (process_line rv st line cb now).metrics.bytes_transferred =
      match searchBytes line with
      | some b =>
        (if containsSub (S ("pass")) line || containsSub (S ("block")) line
         then cb - st.metrics.initial_wg0_bytes else st.metrics.bytes_transferred) + (b : ℤ)
      | none =>
        if containsSub (S ("pass")) line || containsSub (S ("block")) line
        then cb - st.metrics.initial_wg0_bytes else st.metrics.bytes_transferred := by
  rw [process_line_metrics, bytes_step_bytes]
  cases searchBytes line with
  | some b => rw [connect_close_bytes, verdict_step_bytes]
  | none => rw [connect_close_bytes, verdict_step_bytes]

/-
The log path always counts into the "unknown" bucket.
-/

theorem foldLogRecords_unknown (calls : List LogRecordCall) :
    ∀ m : ProxyMetrics,
      lookupCount m.requests_by_host (S ("unknown")) = m.request_count →
      lookupCount (foldLogRecords m calls).requests_by_host (S ("unknown")) =
        (foldLogRecords m calls).request_count := by
  induction calls with
  | nil => intro m hm; simpa [foldLogRecords] using hm
  | cons c t ih =>
    intro m hm
    have hstep :
        lookupCount (record_request m c.success (S ("unknown")) c.client
            c.current_bytes c.now).requests_by_host (S ("unknown")) =
          (record_request m c.success (S ("unknown")) c.client
            c.current_bytes c.now).request_count := by
      rw [record_request_map, record_request_request_count]
      by_cases hc : c.client ≠ S ("unknown")
      · rw [if_pos hc, lookupCount_bumpKey_ne _ _ _ (Ne.symm hc),
          lookupCount_bumpKey_self, hm]
      · rw [if_neg hc, lookupCount_bumpKey_self, hm]
    have := ih _ hstep
    simpa [foldLogRecords] using this

theorem clientLine_mem_clientLines (rbh : List (List Char × Nat)) (k : List Char)
    (n : Nat) (hmem : (k, n) ∈ rbh) (hn : 0 < n) :
    clientLine k n ∈ clientLines rbh := by
  simp only [clientLines, List.mem_filterMap]
  exact ⟨(k, n), hmem, by simp [hn]⟩

theorem clientLine_mem_body (m : ProxyMetrics) (cb : ℤ) (ac : Nat)
    (wg : Option (ℤ × List Char)) (now : ℚ) (x : List Char)
    (hx : x ∈ clientLines m.requests_by_host) : x ∈ metricsBody m cb ac wg now := by
  unfold metricsBody clientBlock
  simp only [List.mem_append, List.mem_cons]
  tauto

/-- C10: every record_request call issued from the log-monitoring path
leaves the host argument at its "unknown" default, so after any such
sequence the "unknown" bucket of the per-client map equals request_count;
whenever request_count is positive the exposition body carries a
proxy_requests_by_client_total sample line for the client label unknown
(whose sanitized form is unchanged). -/
theorem unknown_client_attribution (t0 : ℚ) (b0 : ℤ) (calls : List LogRecordCall) :
    lookupCount (foldLogRecords (init t0 b0) calls).requests_by_host (S ("unknown")) =
      (foldLogRecords (init t0 b0) calls).request_count ∧
    sanitizeLabel (S ("unknown")) = S ("unknown") ∧
    (0 < (foldLogRecords (init t0 b0) calls).request_count →
      ∀ (cb : ℤ) (ac : Nat) (wg : Option (ℤ × List Char)) (now : ℚ),
        clientLine (S ("unknown")) (foldLogRecords (init t0 b0) calls).request_count ∈
          metricsBody (foldLogRecords (init t0 b0) calls) cb ac wg now) := by
  have hinv := foldLogRecords_unknown calls (init t0 b0) (by simp [init, lookupCount])
  refine ⟨hinv, by decide, ?_⟩
  intro hpos cb ac wg now
  exact clientLine_mem_body _ cb ac wg now _
    (clientLine_mem_clientLines _ _ _ (lookupCount_mem _ _ _ hinv hpos) hpos)

/-- Witness for C10 after one successful log-path request. -/
theorem unknown_client_attribution_witness :
    0 < (foldLogRecords (init 0 0) [⟨true, S ("unknown"), 0, 0⟩]).request_count ∧
    clientLine (S ("unknown"))
        (foldLogRecords (init 0 0) [⟨true, S ("unknown"), 0, 0⟩]).request_count ∈
      metricsBody (foldLogRecords (init 0 0) [⟨true, S ("unknown"), 0, 0⟩]) 0 0 none 0 :=
  ⟨by decide,
   (unknown_client_attribution 0 0 [⟨true, S ("unknown"), 0, 0⟩]).2.2 (by decide) 0 0 none 0⟩

/-- C9: the exported request rate equals requestCount times 60 over the
clamped elapsed time since the last request, for every state, and in the
zero-request initial state both the code expression and the formula give
0. -/
theorem request_rate_formula :
    (∀ (m : ProxyMetrics) (now : ℚ),
      request_rate_per_min m now = specRequestRate m now) ∧
    (∀ (t0 now : ℚ) (b0 : ℤ), request_rate_per_min (init t0 b0) now = 0) := by
  constructor
  · intro m now
    unfold request_rate_per_min specRequestRate
    by_cases h : 0 < m.request_count
    · rw [if_pos h, mul_div_assoc]
    · have h0 : m.request_count = 0 := by omega
      simp [h, h0]
  · intro t0 now b0
    simp [request_rate_per_min, init]
